import Mathlib

/-!
# Verification of the Informa productivity dashboard core

A shallow embedding of the data-processing core of
`streamlit_prod_dashboard.py`: CSV ingestion control flow
(`parse_csv_file`), the row normalizer (`process_production_data`),
and the pure aggregation/status functions
(`create_summary_metrics`'s deficit status, `create_detailed_table`'s
status label, `get_productivity_color`).

Modelling conventions:
* A pandas cell is `Cell`: either the missing value `NaN` (`Cell.nan`)
  or a stringified value (`Cell.str`).  pandas renders numeric cells as
  their decimal strings, which is what `str(...)` and `pd.to_numeric`
  observe, so a string-valued cell is a faithful carrier.
* A row (pandas `Series` from `iterrows`) is an association list from
  column name to `Cell`; `col in row` is key membership, `row[col]` is
  lookup, `row.get(col, d)` is lookup with default.
* `pd.to_numeric(x, errors='coerce')` followed by the `pd.notna` check
  is modelled by `toNumeric : Cell → Option ℚ`: `none` exactly when the
  coercion yields `NaN` (missing input, empty string, or an unparseable
  string such as "abc" or "nan").
* Python string helpers (`strip`, `lower`, `replace`, substring `in`)
  are implemented here by structural recursion over the character list
  so that every definition is kernel-computable on concrete inputs.
* Python `int(...)` on a float is truncation toward zero (`pyInt`);
  Python `float(...)` on an already-numeric value is the identity.
* `parse_csv_file` hands one `uploaded_file` object to both
  `pd.read_csv` calls without rewinding it, so each call is modelled as
  a stateful reader (`CsvReader`) that consumes a stream position and
  returns the position it leaves behind; the embedding threads that
  position from the failed first attempt into the retry, as the source
  does.
* `datetime.now()` (the `Date` field) is wall-clock input with no
  data-flow into any claimed property, so the field is omitted from the
  record.
-/

/-- One pandas cell: missing (`NaN`) or a stringified value. -/
inductive Cell where
  | nan : Cell
  | str : String → Cell
  deriving Repr, DecidableEq, Inhabited

/-- A row of a dataframe: association list column-name ↦ cell. -/
abbrev Row := List (String × Cell)

/-- Python `col in row` for a pandas `Series` row: index membership. -/
def rowHas (row : Row) (col : String) : Bool :=
  row.any (fun p => p.1 == col)

/-- `row[col]` when present: the first entry with the given key. -/
def rowGetCell (row : Row) (col : String) : Option Cell :=
  (row.find? (fun p => p.1 == col)).map (fun p => p.2)

/-- Python `row.get(col, d)` for a pandas `Series`. -/
def rowGet (row : Row) (col : String) (d : Cell) : Cell :=
  (rowGetCell row col).getD d

/-- `pd.notna` on a cell. -/
def notna : Cell → Bool
  | Cell.nan => false
  | Cell.str _ => true

/-- Python `str(...)` on a cell; `str(float('nan'))` is `"nan"`. -/
def cellStr : Cell → String
  | Cell.nan => "nan"
  | Cell.str s => s

/-- The whitespace characters removed by Python `str.strip()`. -/
def isWsChar (c : Char) : Bool :=
  c == ' ' || c == '\t' || c == '\n' || c == '\r' || c == '\x0b' || c == '\x0c'

/-- Python `s.strip()`: remove leading and trailing whitespace. -/
def pyStrip (s : String) : String :=
  String.mk (((s.data.dropWhile isWsChar).reverse.dropWhile isWsChar).reverse)

/-- Python `s.lower()` (the inputs here are ASCII). -/
def pyLower (s : String) : String :=
  String.mk (s.data.map Char.toLower)

/-- Python `s.replace('%', '')`: drop every `'%'` character. -/
def stripPercent (s : String) : String :=
  String.mk (s.data.filter (fun c => c != '%'))

/-- Numeric value of a digit-character list. -/
def digitsVal (l : List Char) : ℕ :=
  l.foldl (fun a c => 10 * a + (c.toNat - 48)) 0

/-- Split a character list at every `'.'` (always non-empty). -/
def splitDot : List Char → List (List Char)
  | [] => [[]]
  | c :: t =>
    match splitDot t with
    | [] => [[c]]
    | h :: r => if c == '.' then [] :: h :: r else (c :: h) :: r

/-- Unsigned decimal literal: `"50"`, `"87.5"`, `".5"`, `"5."`.  The
value of `ip.fp` is the rational `(ip * 10^|fp| + fp) / 10^|fp|`. -/
def parseUnsigned (l : List Char) : Option ℚ :=
  match splitDot l with
  | [ip] =>
      if ip.isEmpty || !(ip.all Char.isDigit) then none
      else some (mkRat (digitsVal ip) 1)
  | [ip, fp] =>
      if (ip.isEmpty && fp.isEmpty) || !(ip.all Char.isDigit)
          || !(fp.all Char.isDigit) then none
      else some (mkRat (digitsVal ip * 10 ^ fp.length + digitsVal fp)
        (10 ^ fp.length))
  | _ => none

/-- Decimal string parsing as performed by `pd.to_numeric` on the
inputs this program sees: surrounding whitespace tolerated, optional
sign, decimal point.  Strings whose coercion result is non-finite or
`NaN` (e.g. `"abc"`, `""`, `"nan"`) are parse failures here, matching
the `pd.notna(val)` guard that follows every coercion in the source. -/
def parseNum (s : String) : Option ℚ :=
  match (pyStrip s).data with
  | '-' :: rest => (parseUnsigned rest).map Rat.neg
  | '+' :: rest => parseUnsigned rest
  | l => parseUnsigned l

/-- `pd.to_numeric(cell, errors='coerce')` composed with the
`pd.notna` check: `some q` iff the coercion produced a usable number. -/
def toNumeric : Cell → Option ℚ
  | Cell.nan => none
  | Cell.str s => parseNum s

/-- Python `int(...)` on a float: truncation toward zero. -/
def pyInt (q : ℚ) : ℤ :=
  if 0 ≤ q.num then ((q.num.toNat / q.den : ℕ) : ℤ)
  else -(((-q.num).toNat / q.den : ℕ) : ℤ)

/-- Python substring containment `needle in hay` on character lists. -/
def isSubstrList (n : List Char) : List Char → Bool
  | [] => n.isEmpty
  | c :: t => n.isPrefixOf (c :: t) || isSubstrList n t

/-- Python `needle in hay` for strings. -/
def pyIn (needle hay : String) : Bool :=
  isSubstrList needle.data hay.data

/-- `clean_column_names`: strip whitespace from every column name. -/
def cleanRow (row : Row) : Row :=
  row.map (fun p => (pyStrip p.1, p.2))

/-- Name-candidate columns tried in order (source line 82). -/
def nameCandidates : List String := ["Disp", "Employee name", "Agent", "Name"]

/-- Candidate columns for `cont_processed` (source line 103). -/
def contCands : List String :=
  ["Cont Procsd", "Cont Procsd ", "Contacts Processed", "Contact Processed"]

/-- Candidate columns for `target` (source line 111). -/
def targetCands : List String :=
  ["Cont Proc - Target", "Contact Processed Target", "Target"]

/-- Candidate columns for `eff_cont` (source line 119). -/
def effCands : List String :=
  ["Eff   Cont", "Eff Cont", "Eff   Cont ", "Effective Contacts",
   "Effective Contacts Achieved"]

/-- Candidate columns for `prod_percent` (source line 128). -/
def prodCands : List String :=
  ["Cont Proc - Prod%", "Productivity Achieved %", "Productivity"]

/-- Candidate columns for `net_cont` (source line 137). -/
def netCands : List String :=
  ["Net Cont", "Net Contacts"]

/-- The agent-name scan (source lines 81-85): first candidate column
that is present, non-`NaN`, and non-empty after stripping. -/
def findAgentName (row : Row) : Option String :=
  nameCandidates.findSome? (fun col =>
    match rowGetCell row col with
    | some c =>
        if notna c && pyStrip (cellStr c) != "" then some (pyStrip (cellStr c))
        else none
    | none => none)

/-- `str(lookup_row.get('Employee name', '')).strip()` (source line 96). -/
def lookupName (lrow : Row) : String :=
  pyStrip (cellStr (rowGet lrow "Employee name" (Cell.str "")))

/-- The either-direction case-insensitive substring test of source
line 97. -/
def lookupMatches (agent : String) (lrow : Row) : Bool :=
  pyIn (pyLower agent) (pyLower (lookupName lrow)) ||
    pyIn (pyLower (lookupName lrow)) (pyLower agent)

/-- The team scan of source lines 94-99 over a non-degenerate lookup
table: first matching row's `Team` field, `'UK'` when the key is
absent. -/
def findTeam (lookup : List Row) (agent : String) : Cell :=
  match lookup.find? (fun lrow => lookupMatches agent lrow) with
  | some lrow => rowGet lrow "Team" (Cell.str "UK")
  | none => Cell.str "UK"

/-- Team resolution (source lines 90-99): `team = 'UK'` unless a
non-`None`, non-empty lookup table yields a match. -/
def resolveTeam (lookup : Option (List Row)) (agent : String) : Cell :=
  match lookup with
  | none => Cell.str "UK"
  | some l => if l.isEmpty then Cell.str "UK" else findTeam l agent

/-- One numeric-field scan (source lines 101-124, 136-142): first
candidate column present in the row whose value coerces; `int(val)` of
that value, default 0. -/
def numField (row : Row) (cands : List String) : ℤ :=
  match cands.findSome? (fun col => (rowGetCell row col).bind toNumeric) with
  | some q => pyInt q
  | none => 0

/-- The productivity scan (source lines 126-134): `str(row[col])`,
all `'%'` removed, stripped, then coerced; `float(val)` of the first
success, default 0. -/
def prodField (row : Row) : ℚ :=
  match prodCands.findSome? (fun col =>
      (rowGetCell row col).bind (fun c =>
        parseNum (pyStrip (stripPercent (cellStr c))))) with
  | some q => q
  | none => 0

/-- The canonical output unit built at source lines 148-160.  `Date`
(wall clock) is omitted; `Team`, `Prod_Hours` and `Level` keep the raw
cell type since the source stores whatever `row.get` returns. -/
structure NormalizedRecord where
  Agent : String
  Team : Cell
  Contacts_Processed : ℤ
  Target : ℤ
  Deficit : ℤ
  Productivity : ℚ
  Effective_Contacts : ℤ
  Net_Contacts : ℤ
  Prod_Hours : Cell
  Level : Cell
  deriving Repr, DecidableEq, Inhabited

/-- The record dict literal of source lines 148-160, for a row that
produced `agent`. -/
def mkRecord (lookup : Option (List Row)) (row : Row) (agent : String) :
    NormalizedRecord :=
  { Agent := agent
    Team := resolveTeam lookup agent
    Contacts_Processed := numField row contCands
    Target := numField row targetCands
    Deficit := numField row targetCands - numField row contCands
    Productivity := prodField row
    Effective_Contacts := numField row effCands
    Net_Contacts := numField row netCands
    Prod_Hours := rowGet row "Prod Hours" (Cell.str "0:00:00")
    Level := rowGet row "Level" (Cell.str "L2") }

/-- The per-row body of the loop at source lines 79-160: skip the row
when no agent name is found, else emit one record. -/
def processRow (lookup : Option (List Row)) (row : Row) :
    Option NormalizedRecord :=
  (findAgentName row).map (mkRecord lookup row)

/-- `process_production_data`: clean column names of both tables, then
map each raw row to zero or one `NormalizedRecord`, preserving order. -/
def process_production_data (raw : List Row) (lookup : Option (List Row)) :
    List NormalizedRecord :=
  (raw.map cleanRow).filterMap
    (processRow (lookup.map (fun l => l.map cleanRow)))

/-- `df['Deficit'].sum()` (source line 194). -/
def totalDeficit (rs : List NormalizedRecord) : ℤ :=
  (rs.map (fun r => r.Deficit)).sum

/-- The status label of `create_summary_metrics` (source line 195):
`"Surplus" if total_deficit <= 0 else "Deficit"`. -/
def summary_status (rs : List NormalizedRecord) : String :=
  if totalDeficit rs ≤ 0 then "Surplus" else "Deficit"

/-- The per-record status lambda of `create_detailed_table`
(source lines 307-309). -/
def detailed_status (x : ℚ) : String :=
  if 100 ≤ x then "🟢 Achieved" else if 80 ≤ x then "🟠 Close" else "🔴 Below"

/-- `get_productivity_color` (source lines 171-178). -/
def get_productivity_color (x : ℚ) : String :=
  if 100 ≤ x then "#10b981" else if 80 ≤ x then "#f59e0b" else "#ef4444"

/-- A parsed dataframe, abstract for the ingestion claim. -/
structure Table where
  rows : List Row
  deriving Repr, DecidableEq

/-- Outcome of one `pd.read_csv` attempt: a table, a
`UnicodeDecodeError`, or any other exception (e.g. a parser error on an
invalidly delimited stream, or `EmptyDataError` on an exhausted one). -/
inductive ReadErr where
  | unicodeDecode : ReadErr
  | other : ReadErr
  deriving Repr, DecidableEq

/-- The two text encodings tried by `parse_csv_file`. -/
inductive Enc where
  | utf8 : Enc
  | latin1 : Enc
  deriving Repr, DecidableEq

/-- One `pd.read_csv(uploaded_file, encoding=e)` call, abstracted as a
stateful reader over the uploaded file: given the encoding and the
stream position the call starts from, it yields its outcome and the
position it leaves the stream at.  The position must be threaded
through because the source hands the SAME `uploaded_file` object to
both calls and never rewinds it — there is no `seek(0)` between the
attempts. -/
abbrev CsvReader := Enc → ℕ → Except ReadErr Table × ℕ

/-- `parse_csv_file` (source lines 43-57) over the shared stream: try
UTF-8 from the current position; on `UnicodeDecodeError` retry Latin-1
from wherever the failed attempt left the stream; report and return
`None` on every failure path. -/
def parse_csv_file (read : CsvReader) (pos : ℕ) : Option Table × ℕ :=
  match read Enc.utf8 pos with
  | (Except.ok df, pos') => (some df, pos')
  | (Except.error ReadErr.unicodeDecode, pos') =>
      (match read Enc.latin1 pos' with
       | (Except.ok df, pos'') => (some df, pos'')
       | (Except.error _, pos'') => (none, pos''))
  | (Except.error ReadErr.other, pos') => (none, pos')

/-! ## Helper lemmas -/

/-- A `findSome?` success comes from some list element. -/
lemma exists_of_findSome?_some {α β : Type} {f : α → Option β} {l : List α}
    {b : β} (h : l.findSome? f = some b) : ∃ a ∈ l, f a = some b := by
  induction l with
  | nil => simp [List.findSome?] at h
  | cons a t ih =>
    rw [List.findSome?_cons] at h
    cases hfa : f a with
    | some c =>
      rw [hfa] at h
      exact ⟨a, List.mem_cons_self a t, hfa.trans h⟩
    | none =>
      rw [hfa] at h
      obtain ⟨x, hx, hfx⟩ := ih h
      exact ⟨x, List.mem_cons_of_mem a hx, hfx⟩

/-- `findSome?` skips a prefix on which the function fails. -/
lemma findSome?_append_of_none {α β : Type} {f : α → Option β}
    {pre l : List α} (h : ∀ a ∈ pre, f a = none) :
    (pre ++ l).findSome? f = l.findSome? f := by
  induction pre with
  | nil => rfl
  | cons a t ih =>
    rw [List.cons_append, List.findSome?_cons, h a (List.mem_cons_self a t)]
    exact ih fun x hx => h x (List.mem_cons_of_mem a hx)

/-- `find?` skips a prefix on which the predicate is false. -/
lemma find?_append_of_neg {α : Type} {p : α → Bool} {pre l : List α}
    (h : ∀ a ∈ pre, p a = false) :
    (pre ++ l).find? p = l.find? p := by
  induction pre with
  | nil => rfl
  | cons a t ih =>
    rw [List.cons_append,
      List.find?_cons_of_neg _ (by simp [h a (List.mem_cons_self a t)])]
    exact ih fun x hx => h x (List.mem_cons_of_mem a hx)

/-- Membership in the normalizer output comes from a cleaned raw row. -/
lemma mem_process_shape {raw : List Row} {lk : Option (List Row)}
    {r : NormalizedRecord} (h : r ∈ process_production_data raw lk) :
    ∃ row ∈ raw.map cleanRow,
      processRow (lk.map (fun l => l.map cleanRow)) row = some r := by
  unfold process_production_data at h
  exact List.mem_filterMap.mp h

/-- A row that produces a record does so through `mkRecord` on the
agent name it found. -/
lemma processRow_some {lk : Option (List Row)} {row : Row}
    {r : NormalizedRecord} (h : processRow lk row = some r) :
    ∃ a, findAgentName row = some a ∧ r = mkRecord lk row a := by
  unfold processRow at h
  obtain ⟨a, ha, hm⟩ := Option.map_eq_some'.mp h
  exact ⟨a, ha, hm.symm⟩

/-- The empty string is a Python substring of every string. -/
lemma isSubstrList_nil (l : List Char) : isSubstrList [] l = true := by
  cases l with
  | nil => rfl
  | cons c t => simp [isSubstrList, List.isPrefixOf]

/-! ## C1: Deficit is always recomputed -/

/-- C1: every `NormalizedRecord` emitted by `process_production_data`
satisfies `Deficit = Target - Contacts_Processed` exactly; the field is
built from the record's own `Target` and `Contacts_Processed` scans and
never read from an input column. -/
theorem deficit_recomputed (raw : List Row) (lk : Option (List Row))
    (r : NormalizedRecord) (h : r ∈ process_production_data raw lk) :
    r.Deficit = r.Target - r.Contacts_Processed := by
  obtain ⟨row, _, hrow⟩ := mem_process_shape h
  obtain ⟨a, _, rfl⟩ := processRow_some hrow
  rfl

/-- Witness for C1 at a concrete input: a row carrying an explicit
`Deficit` column that disagrees with `Target - Contacts_Processed`
still yields the recomputed value. -/
theorem deficit_recomputed_witness :
    ({ Agent := "A", Team := Cell.str "UK", Contacts_Processed := 50,
       Target := 40, Deficit := -10, Productivity := 0,
       Effective_Contacts := 0, Net_Contacts := 0,
       Prod_Hours := Cell.str "0:00:00",
       Level := Cell.str "L2" } : NormalizedRecord).Deficit =
      ({ Agent := "A", Team := Cell.str "UK", Contacts_Processed := 50,
         Target := 40, Deficit := -10, Productivity := 0,
         Effective_Contacts := 0, Net_Contacts := 0,
         Prod_Hours := Cell.str "0:00:00",
         Level := Cell.str "L2" } : NormalizedRecord).Target -
      ({ Agent := "A", Team := Cell.str "UK", Contacts_Processed := 50,
         Target := 40, Deficit := -10, Productivity := 0,
         Effective_Contacts := 0, Net_Contacts := 0,
         Prod_Hours := Cell.str "0:00:00",
         Level := Cell.str "L2" } : NormalizedRecord).Contacts_Processed :=
  deficit_recomputed
    [[("Disp", Cell.str "A"), ("Cont Procsd", Cell.str "50"),
      ("Cont Proc - Target", Cell.str "40"), ("Deficit", Cell.str "999")]]
    none _ (by decide)

/-! ## C2: rows without a usable agent name are silently skipped -/

/-- C2: a row in which every name-candidate column is missing, `NaN`,
or whitespace-only after stripping produces no `NormalizedRecord`
(`processRow` is the per-row normalizer applied via `filterMap`, and it
is total, so no error is raised either); consequently every emitted
record has a non-empty `Agent`. -/
theorem no_agent_row_skipped :
    (∀ (lk : Option (List Row)) (row : Row),
        (∀ col ∈ nameCandidates, ∀ c ∈ rowGetCell row col,
          notna c = false ∨ pyStrip (cellStr c) = "") →
        processRow lk row = none)
    ∧ (∀ (raw : List Row) (lk : Option (List Row)) (r : NormalizedRecord),
        r ∈ process_production_data raw lk → r.Agent ≠ "") := by
  constructor
  · intro lk row h
    have hfind : findAgentName row = none := by
      unfold findAgentName
      apply List.findSome?_eq_none_iff.mpr
      intro col hcol
      cases hg : rowGetCell row col with
      | none => simp [hg]
      | some c =>
        rcases h col hcol c (Option.mem_def.mpr hg) with hn | hs
        · simp [hg, hn]
        · simp [hg, hs]
    unfold processRow
    rw [hfind]
    rfl
  · intro raw lk r hr
    obtain ⟨row, _, hrow⟩ := mem_process_shape hr
    obtain ⟨a, ha, rfl⟩ := processRow_some hrow
    unfold findAgentName at ha
    obtain ⟨col, _, hf⟩ := exists_of_findSome?_some ha
    show a ≠ ""
    split at hf
    · split at hf
      · rename_i hcond
        obtain rfl := Option.some.inj hf
        intro h0
        have := (Bool.and_eq_true _ _ |>.mp hcond).2
        rw [h0] at this
        simp at this
      · exact absurd hf (by simp)
    · exact absurd hf (by simp)

/-- Witness for C2: a row whose only name-candidate entries are a
whitespace-only `Disp` and a `NaN` `Agent` is skipped. -/
theorem no_agent_row_skipped_witness :
    processRow none [("Disp", Cell.str "   "), ("Agent", Cell.nan)] = none :=
  no_agent_row_skipped.1 none _ (by decide)

/-! ## C3: ordered candidate-column fallback for numeric fields -/

/-- C3: for any numeric-field candidate list (the four count fields
via `numField`, productivity via `prodField` with its percent-stripping
coercion), the first candidate present in the row whose value coerces
determines the field (`int(val)` for counts, the float itself for
productivity); candidates that are absent or fail coercion are passed
over; if none succeeds the field defaults to 0; in particular an
earlier-listed (newer) spelling beats a later one, shown concretely for
`Contacts_Processed` on a row holding both `"Cont Procsd" = 5` and
`"Contacts Processed" = 9`. -/
theorem numeric_first_candidate_wins :
    (∀ (row : Row) (pre post : List String) (col : String) (c : Cell) (q : ℚ),
        (∀ col' ∈ pre, ∀ c' ∈ rowGetCell row col', toNumeric c' = none) →
        rowGetCell row col = some c →
        toNumeric c = some q →
        numField row (pre ++ col :: post) = pyInt q)
    ∧ (∀ (row : Row) (cands : List String),
        (∀ col ∈ cands, ∀ c ∈ rowGetCell row col, toNumeric c = none) →
        numField row cands = 0)
    ∧ (∀ (row : Row) (pre post : List String) (col : String) (c : Cell)
          (q : ℚ),
        prodCands = pre ++ col :: post →
        (∀ col' ∈ pre, ∀ c' ∈ rowGetCell row col',
          parseNum (pyStrip (stripPercent (cellStr c'))) = none) →
        rowGetCell row col = some c →
        parseNum (pyStrip (stripPercent (cellStr c))) = some q →
        prodField row = q)
    ∧ (∀ row : Row,
        (∀ col ∈ prodCands, ∀ c ∈ rowGetCell row col,
          parseNum (pyStrip (stripPercent (cellStr c))) = none) →
        prodField row = 0)
    ∧ (process_production_data
        [[("Contacts Processed", Cell.str "9"), ("Cont Procsd", Cell.str "5"),
          ("Disp", Cell.str "A")]] none).map
        (fun r => r.Contacts_Processed) = [5] := by
  refine ⟨?_, ?_, ?_, ?_, by decide⟩
  · intro row pre post col c q hpre hcol hq
    have hpre' : ∀ a ∈ pre, (rowGetCell row a).bind toNumeric = none := by
      intro a hmem
      cases hga : rowGetCell row a with
      | none => rfl
      | some c' => simp [hpre a hmem c' (Option.mem_def.mpr hga)]
    unfold numField
    rw [findSome?_append_of_none hpre', List.findSome?_cons, hcol]
    simp [hq]
  · intro row cands h
    have h' : cands.findSome?
        (fun col => (rowGetCell row col).bind toNumeric) = none := by
      apply List.findSome?_eq_none_iff.mpr
      intro col hcol
      cases hg : rowGetCell row col with
      | none => rfl
      | some c => simp [h col hcol c (Option.mem_def.mpr hg)]
    unfold numField
    rw [h']
  · intro row pre post col c q hsplit hpre hcol hq
    have hpre' : ∀ a ∈ pre, (rowGetCell row a).bind
        (fun c => parseNum (pyStrip (stripPercent (cellStr c)))) = none := by
      intro a hmem
      cases hga : rowGetCell row a with
      | none => rfl
      | some c' => simp [hpre a hmem c' (Option.mem_def.mpr hga)]
    unfold prodField
    rw [hsplit, findSome?_append_of_none hpre', List.findSome?_cons, hcol]
    simp [hq]
  · intro row h
    have h' : prodCands.findSome? (fun col => (rowGetCell row col).bind
        (fun c => parseNum (pyStrip (stripPercent (cellStr c))))) = none := by
      apply List.findSome?_eq_none_iff.mpr
      intro col hcol
      cases hg : rowGetCell row col with
      | none => rfl
      | some c => simp [h col hcol c (Option.mem_def.mpr hg)]
    unfold prodField
    rw [h']

/-- Witness for C3: with the `target` candidate list split around its
second entry, a row carrying only `"Contact Processed Target" = 7`
yields `Target = 7`. -/
theorem numeric_first_candidate_wins_witness :
    numField [("Contact Processed Target", Cell.str "7")]
      (["Cont Proc - Target"] ++ "Contact Processed Target" :: ["Target"]) =
      pyInt (mkRat 7 1) :=
  numeric_first_candidate_wins.1 _ _ _ _ (Cell.str "7") (mkRat 7 1)
    (by decide) (by decide) (by decide)

/-! ## C4: productivity parsing strips percent signs -/

/-- C4: productivity coercion removes `'%'` characters before parsing:
when the first productivity candidate is present and its
percent-stripped value parses, that value is the record's
`Productivity`; concretely `"87.5%"` yields `87.5` and a row whose
three productivity candidates all hold `"abc"` yields `0`. -/
theorem productivity_percent_stripping :
    (∀ (row : Row) (c : Cell) (q : ℚ),
        rowGetCell row "Cont Proc - Prod%" = some c →
        parseNum (pyStrip (stripPercent (cellStr c))) = some q →
        prodField row = q)
    ∧ (process_production_data
        [[("Disp", Cell.str "A"), ("Cont Proc - Prod%", Cell.str "87.5%")]]
        none).map (fun r => r.Productivity) = [mkRat 175 2]
    ∧ mkRat 175 2 = 87.5
    ∧ (process_production_data
        [[("Disp", Cell.str "A"), ("Cont Proc - Prod%", Cell.str "abc"),
          ("Productivity Achieved %", Cell.str "abc"),
          ("Productivity", Cell.str "abc")]] none).map
        (fun r => r.Productivity) = [0] := by
  refine ⟨?_, by decide, by rw [Rat.mkRat_eq_div]; norm_num, by decide⟩
  intro row c q hc hq
  unfold prodField prodCands
  rw [List.findSome?_cons, hc]
  simp [hq]

/-- Witness for C4: a row whose first productivity candidate holds
`"87.5%"` gets `Productivity = 87.5` (as `mkRat 175 2`). -/
theorem productivity_percent_stripping_witness :
    prodField [("Cont Proc - Prod%", Cell.str "87.5%")] = mkRat 175 2 :=
  productivity_percent_stripping.1 _ (Cell.str "87.5%") (mkRat 175 2)
    (by decide) (by decide)

/-! ## C5: team resolution -/

/-- A column absent from a row yields no cell. -/
lemma rowGetCell_eq_none_of_not_has {lrow : Row} {col : String}
    (h : rowHas lrow col = false) : rowGetCell lrow col = none := by
  unfold rowHas at h
  have hf : lrow.find? (fun p => p.1 == col) = none := by
    apply List.find?_eq_none.mpr
    intro p hp hpc
    have hcontra : lrow.any (fun p => p.1 == col) = true :=
      List.any_eq_true.mpr ⟨p, hp, hpc⟩
    rw [h] at hcontra
    cases hcontra
  unfold rowGetCell
  rw [hf]
  rfl

/-- C5 counterexample: a lookup row that matches the agent but whose
`Team` field is empty (`NaN`, as pandas reads an empty CSV cell) does
NOT fall back to `"UK"`: the emitted record's `Team` is the `NaN`
value itself, contradicting the claim that an empty team field
defaults to the fallback. -/
theorem team_empty_field_counterexample :
    (process_production_data [[("Disp", Cell.str "Alice")]]
        (some [[("Employee name", Cell.str "Alice"),
                ("Team", Cell.nan)]])).map (fun r => r.Team) = [Cell.nan]
    ∧ Cell.nan ≠ Cell.str "UK" := by decide

/-- C5 (amended): no/empty lookup table gives `Team = "UK"`; otherwise
the first lookup row (in given order) passing the case-insensitive
either-direction substring test supplies `Team` via
`row.get('Team', 'UK')`, so the `"UK"` fallback applies when the
matched row has no `Team` column at all (and when no row matches) —
but a present-yet-empty `Team` value is taken as-is; the spec's
"John Smith"/"APAC" example resolves agent "Smith" to "APAC". -/
theorem team_resolution_amended :
    (∀ agent, resolveTeam none agent = Cell.str "UK")
    ∧ (∀ agent, resolveTeam (some []) agent = Cell.str "UK")
    ∧ (∀ (pre post : List Row) (lrow : Row) (agent : String),
        (∀ l' ∈ pre, lookupMatches agent l' = false) →
        lookupMatches agent lrow = true →
        resolveTeam (some (pre ++ lrow :: post)) agent =
          rowGet lrow "Team" (Cell.str "UK"))
    ∧ (∀ (lrows : List Row) (agent : String),
        (∀ l' ∈ lrows, lookupMatches agent l' = false) →
        resolveTeam (some lrows) agent = Cell.str "UK")
    ∧ (∀ (lrow : Row), rowHas lrow "Team" = false →
        rowGet lrow "Team" (Cell.str "UK") = Cell.str "UK")
    ∧ (process_production_data [[("Disp", Cell.str "Smith")]]
        (some [[("Employee name", Cell.str "John Smith"),
                ("Team", Cell.str "APAC")]])).map (fun r => r.Team) =
        [Cell.str "APAC"] := by
  refine ⟨fun agent => rfl, fun agent => rfl, ?_, ?_, ?_, by decide⟩
  · intro pre post lrow agent hpre hmatch
    show (if (pre ++ lrow :: post).isEmpty = true then Cell.str "UK"
      else findTeam (pre ++ lrow :: post) agent) = _
    rw [if_neg (by simp)]
    unfold findTeam
    rw [find?_append_of_neg hpre, List.find?_cons_of_pos _ hmatch]
  · intro lrows agent h
    show (if lrows.isEmpty = true then Cell.str "UK"
      else findTeam lrows agent) = _
    by_cases he : lrows.isEmpty
    · rw [if_pos he]
    · rw [if_neg he]
      unfold findTeam
      rw [List.find?_eq_none.mpr (fun x hx => by simp [h x hx])]
  · intro lrow h
    unfold rowGet
    rw [rowGetCell_eq_none_of_not_has h]
    rfl

/-- Witness for C5 (amended), at the spec's own example: the lookup row
`("John Smith", "APAC")` matches agent `"Smith"` and supplies its team. -/
theorem team_resolution_amended_witness :
    resolveTeam (some ([] ++
        [("Employee name", Cell.str "John Smith"),
         ("Team", Cell.str "APAC")] :: [])) "Smith" =
      rowGet [("Employee name", Cell.str "John Smith"),
        ("Team", Cell.str "APAC")] "Team" (Cell.str "UK") :=
  team_resolution_amended.2.2.1 [] []
    [("Employee name", Cell.str "John Smith"), ("Team", Cell.str "APAC")]
    "Smith" (by decide) (by decide)

/-! ## C6: count fields -/

/-- C6 counterexample: the normalizer does not clamp negative inputs:
a row with `"Cont Procsd" = "-5"` yields `Contacts_Processed = -5 < 0`,
contradicting the claimed `≥ 0` invariant. -/
theorem counts_nonneg_counterexample :
    (process_production_data [[("Disp", Cell.str "A"),
        ("Cont Procsd", Cell.str "-5")]] none).map
        (fun r => r.Contacts_Processed) = [(-5 : ℤ)]
    ∧ ((-5 : ℤ) < 0) := by decide

/-- `int()` truncation preserves non-negativity. -/
lemma pyInt_nonneg {q : ℚ} (h : 0 ≤ q) : 0 ≤ pyInt q := by
  unfold pyInt
  rw [if_pos (Rat.num_nonneg.mpr h)]
  exact Int.ofNat_nonneg _

/-- A numeric-field scan over a row whose parseable cells are all
non-negative is non-negative. -/
lemma numField_nonneg {row : Row} {cands : List String}
    (h : ∀ p ∈ row, ∀ q ∈ toNumeric p.2, 0 ≤ q) :
    0 ≤ numField row cands := by
  unfold numField
  cases hf : cands.findSome?
      (fun col => (rowGetCell row col).bind toNumeric) with
  | none => exact le_refl 0
  | some q =>
    obtain ⟨col, _, hcol⟩ := exists_of_findSome?_some hf
    cases hg : rowGetCell row col with
    | none => rw [hg] at hcol; cases hcol
    | some c =>
      rw [hg] at hcol
      obtain ⟨p, hfind, hp2⟩ := Option.map_eq_some'.mp hg
      have hpmem : p ∈ row := List.mem_of_find?_eq_some hfind
      have hnum : toNumeric c = some q := hcol
      apply pyInt_nonneg
      apply h p hpmem q
      rw [Option.mem_def, hp2]
      exact hnum

/-- Cells survive column-name cleaning unchanged. -/
lemma cleanRow_cells {row : Row} {p : String × Cell} (hp : p ∈ cleanRow row) :
    ∃ p0 ∈ row, p.2 = p0.2 := by
  obtain ⟨p0, hp0, hq⟩ := List.mem_map.mp hp
  exact ⟨p0, hp0, by rw [← hq]⟩

/-- C6 (amended): `Contacts_Processed`, `Target`, `Effective_Contacts`
and `Net_Contacts` are integers (0 when no candidate parses), and they
are `≥ 0` whenever every numerically-parseable cell value in the input
rows is `≥ 0`; the code does not clamp, so negative inputs do produce
negative counts (see the counterexample). -/
theorem counts_nonneg_of_nonneg_inputs (raw : List Row)
    (lk : Option (List Row))
    (h : ∀ row ∈ raw, ∀ p ∈ row, ∀ q ∈ toNumeric p.2, 0 ≤ q) :
    ∀ r ∈ process_production_data raw lk,
      0 ≤ r.Contacts_Processed ∧ 0 ≤ r.Target ∧
        0 ≤ r.Effective_Contacts ∧ 0 ≤ r.Net_Contacts := by
  intro r hr
  obtain ⟨row', hmem, hrow⟩ := mem_process_shape hr
  obtain ⟨a, _, rfl⟩ := processRow_some hrow
  obtain ⟨row0, hrow0, hclean⟩ := List.mem_map.mp hmem
  have h' : ∀ p ∈ row', ∀ q ∈ toNumeric p.2, 0 ≤ q := by
    intro p hp q hq
    rw [← hclean] at hp
    obtain ⟨p0, hp0, hpq⟩ := cleanRow_cells hp
    exact h row0 hrow0 p0 hp0 q (by rw [← hpq]; exact hq)
  exact ⟨numField_nonneg h', numField_nonneg h', numField_nonneg h',
    numField_nonneg h'⟩

/-- The record produced by the all-non-negative sample row used in the
witness below. -/
def sampleNonnegRecord : NormalizedRecord :=
  { Agent := "A", Team := Cell.str "UK", Contacts_Processed := 5,
    Target := 0, Deficit := -5, Productivity := 0,
    Effective_Contacts := 0, Net_Contacts := 0,
    Prod_Hours := Cell.str "0:00:00", Level := Cell.str "L2" }

/-- Witness for C6 (amended) on a concrete all-non-negative input. -/
theorem counts_nonneg_of_nonneg_inputs_witness :
    0 ≤ sampleNonnegRecord.Contacts_Processed ∧
      0 ≤ sampleNonnegRecord.Target ∧
      0 ≤ sampleNonnegRecord.Effective_Contacts ∧
      0 ≤ sampleNonnegRecord.Net_Contacts :=
  counts_nonneg_of_nonneg_inputs
    [[("Disp", Cell.str "A"), ("Cont Procsd", Cell.str "5")]] none
    (by decide) sampleNonnegRecord (by decide)

/-! ## C7: surplus/deficit status and the end-to-end scenario -/

/-- The spec's 3-row end-to-end scenario input: agent `"A"` with
`"Cont Procsd " = 50` (trailing-space header) and
`"Cont Proc - Target" = 40`; agent `"B"` with
`"Contacts Processed" = 30` and `"Contact Processed Target" = 40`; and
a row with no name column. -/
def scenarioRows : List Row :=
  [[("Disp", Cell.str "A"), ("Cont Procsd ", Cell.str "50"),
    ("Cont Proc - Target", Cell.str "40")],
   [("Employee name", Cell.str "B"), ("Contacts Processed", Cell.str "30"),
    ("Contact Processed Target", Cell.str "40")],
   [("Contacts Processed", Cell.str "10")]]

/-- C7: `summary_status` is `"Surplus"` exactly when the summed
`Deficit` is `≤ 0` and `"Deficit"` otherwise; the 3-row scenario yields
exactly the records for `A` and `B`, deficits `-10` and `10`, total
deficit `0`, status `"Surplus"`. -/
theorem surplus_status_label :
    (∀ rs : List NormalizedRecord,
        (summary_status rs = "Surplus" ↔ totalDeficit rs ≤ 0)
        ∧ (summary_status rs = "Deficit" ↔ 0 < totalDeficit rs))
    ∧ (process_production_data scenarioRows none).map
        (fun r => r.Agent) = ["A", "B"]
    ∧ (process_production_data scenarioRows none).map
        (fun r => r.Deficit) = [-10, 10]
    ∧ totalDeficit (process_production_data scenarioRows none) = 0
    ∧ summary_status (process_production_data scenarioRows none) =
        "Surplus" := by
  refine ⟨?_, by decide, by decide, by decide, by decide⟩
  intro rs
  unfold summary_status
  by_cases h : totalDeficit rs ≤ 0
  · rw [if_pos h]
    exact ⟨⟨fun _ => h, fun _ => rfl⟩,
      ⟨fun hs => absurd hs (by decide), fun hlt => absurd h (not_le.mpr hlt)⟩⟩
  · rw [if_neg h]
    exact ⟨⟨fun hs => absurd hs (by decide), fun hle => absurd hle h⟩,
      ⟨fun _ => not_le.mp h, fun _ => rfl⟩⟩

/-! ## C8: per-record status classification -/

/-- C8: the status label (and the matching color) is a total function
of `Productivity` alone with thresholds 100 and 80: `≥ 100` is
Achieved, `[80, 100)` is Close, `< 80` is Below; the three cases are
exhaustive and mutually exclusive. -/
theorem productivity_status_classification (x : ℚ) :
    (detailed_status x = "🟢 Achieved" ↔ 100 ≤ x)
    ∧ (detailed_status x = "🟠 Close" ↔ 80 ≤ x ∧ x < 100)
    ∧ (detailed_status x = "🔴 Below" ↔ x < 80)
    ∧ (get_productivity_color x = "#10b981" ↔ 100 ≤ x)
    ∧ (get_productivity_color x = "#f59e0b" ↔ 80 ≤ x ∧ x < 100)
    ∧ (get_productivity_color x = "#ef4444" ↔ x < 80)
    ∧ (detailed_status x = "🟢 Achieved" ∨ detailed_status x = "🟠 Close"
        ∨ detailed_status x = "🔴 Below") := by
  unfold detailed_status get_productivity_color
  by_cases h1 : 100 ≤ x
  · rw [if_pos h1, if_pos h1]
    exact ⟨⟨fun _ => h1, fun _ => rfl⟩,
      ⟨fun hs => absurd hs (by decide), fun hc => absurd h1 (not_le.mpr hc.2)⟩,
      ⟨fun hs => absurd hs (by decide),
        fun hb => absurd h1 (not_le.mpr (lt_trans hb (by norm_num)))⟩,
      ⟨fun _ => h1, fun _ => rfl⟩,
      ⟨fun hs => absurd hs (by decide), fun hc => absurd h1 (not_le.mpr hc.2)⟩,
      ⟨fun hs => absurd hs (by decide),
        fun hb => absurd h1 (not_le.mpr (lt_trans hb (by norm_num)))⟩,
      Or.inl rfl⟩
  · by_cases h2 : 80 ≤ x
    · rw [if_neg h1, if_pos h2, if_neg h1, if_pos h2]
      exact ⟨⟨fun hs => absurd hs (by decide), fun hg => absurd hg h1⟩,
        ⟨fun _ => ⟨h2, not_le.mp h1⟩, fun _ => rfl⟩,
        ⟨fun hs => absurd hs (by decide),
          fun hb => absurd h2 (not_le.mpr hb)⟩,
        ⟨fun hs => absurd hs (by decide), fun hg => absurd hg h1⟩,
        ⟨fun _ => ⟨h2, not_le.mp h1⟩, fun _ => rfl⟩,
        ⟨fun hs => absurd hs (by decide),
          fun hb => absurd h2 (not_le.mpr hb)⟩,
        Or.inr (Or.inl rfl)⟩
    · rw [if_neg h1, if_neg h2, if_neg h1, if_neg h2]
      exact ⟨⟨fun hs => absurd hs (by decide), fun hg => absurd hg h1⟩,
        ⟨fun hs => absurd hs (by decide), fun hc => absurd hc.1 h2⟩,
        ⟨fun _ => not_le.mp h2, fun _ => rfl⟩,
        ⟨fun hs => absurd hs (by decide), fun hg => absurd hg h1⟩,
        ⟨fun hs => absurd hs (by decide), fun hc => absurd hc.1 h2⟩,
        ⟨fun _ => not_le.mp h2, fun _ => rfl⟩,
        Or.inr (Or.inr rfl)⟩

/-! ## C9: the Latin-1 retry resumes from the moved stream position -/

/-- The full Latin-1 parse of the failing upload used for C9: the
19-byte file `"Agent,Team\nRen\xe9,UK\n"`, whose `\xe9` byte is `é` in
Latin-1 and invalid in UTF-8. -/
def failFileTable : Table :=
  ⟨[[("Agent", Cell.str "René"), ("Team", Cell.str "UK")]]⟩

/-- pandas and the shared stream on that upload, modelled from the
library's behavior: the UTF-8 attempt's read-ahead consumes the whole
(small) file before the decoder reaches the invalid byte and raises
`UnicodeDecodeError`, leaving the stream at end-of-file (position 19);
a Latin-1 read started at position 0 decodes every byte — Latin-1 can
decode any byte sequence — and returns the full table; a read started
anywhere past the data sees an empty stream and raises
`EmptyDataError` (a non-decode exception). -/
def pandasFailingReader : CsvReader
  | Enc.utf8, 0 => (Except.error ReadErr.unicodeDecode, 19)
  | Enc.latin1, 0 => (Except.ok failFileTable, 19)
  | _, p => (Except.error ReadErr.other, p)

/-- C9 (code bug): on an upload whose bytes fail UTF-8 mid-stream but
are fully Latin-1-decodable and validly delimited, the claim requires
the fully parsed table (its no-data arm applies only when decoding
fails under BOTH encodings) — yet `parse_csv_file` returns the no-data
value `none`, because the Latin-1 retry resumes from the position the
failed UTF-8 attempt left the shared, never-rewound stream: end-of-file
here, and mid-file on an upload larger than the read-ahead buffer,
where the retry would return a table of only the remaining bytes.  The
second conjunct shows the retry the claim describes — Latin-1 from
position 0 — would have produced the full table. -/
theorem parse_csv_seek_bug :
    (parse_csv_file pandasFailingReader 0).1 = none
    ∧ pandasFailingReader Enc.latin1 0 = (Except.ok failFileTable, 19) :=
  ⟨rfl, rfl⟩

/-! ## C10: an empty lookup employee name matches every agent -/

/-- C10: when the first lookup row's stripped, stringified
employee-name field is the empty string (e.g. the `Employee name`
column is missing, so `row.get('Employee name', '')` returns `''`),
the either-direction substring test succeeds for every agent — the
empty string is a substring of every name — so every emitted record
receives that first row's team value (`row.get('Team', 'UK')`),
regardless of the agent's actual name. -/
theorem empty_lookup_name_matches_all (raw : List Row) (firstRow : Row)
    (rest : List Row) (h : lookupName (cleanRow firstRow) = "") :
    ∀ r ∈ process_production_data raw (some (firstRow :: rest)),
      r.Team = rowGet (cleanRow firstRow) "Team" (Cell.str "UK") := by
  intro r hr
  obtain ⟨row, _, hrow⟩ := mem_process_shape hr
  obtain ⟨a, _, rfl⟩ := processRow_some hrow
  show resolveTeam (some (cleanRow firstRow :: rest.map cleanRow)) a = _
  have hm : lookupMatches a (cleanRow firstRow) = true := by
    unfold lookupMatches
    rw [h]
    have hempty : pyIn (pyLower "") (pyLower a) = true := isSubstrList_nil _
    rw [hempty, Bool.or_true]
  show (if (cleanRow firstRow :: rest.map cleanRow).isEmpty = true
    then Cell.str "UK"
    else findTeam (cleanRow firstRow :: rest.map cleanRow) a) = _
  rw [if_neg (by simp)]
  unfold findTeam
  rw [List.find?_cons_of_pos _ hm]

/-- Witness for C10: a lookup table whose only row has no
`Employee name` column (hence an empty lookup name) assigns its `Team`
value `"X"` to the record for agent `"Bob"`. -/
theorem empty_lookup_name_matches_all_witness :
    ({ Agent := "Bob", Team := Cell.str "X", Contacts_Processed := 0,
       Target := 0, Deficit := 0, Productivity := 0,
       Effective_Contacts := 0, Net_Contacts := 0,
       Prod_Hours := Cell.str "0:00:00",
       Level := Cell.str "L2" } : NormalizedRecord).Team =
      rowGet (cleanRow [("Team", Cell.str "X")]) "Team" (Cell.str "UK") :=
  empty_lookup_name_matches_all [[("Disp", Cell.str "Bob")]]
    [("Team", Cell.str "X")] [] (by decide) _ (by decide)
